import Mathlib

/-!
Verification development for the CodeGraphContext core: a shallow embedding of
`src/codegraphcontext/core/database_falkordb_remote.py` (the remote FalkorDB
singleton connection manager) and
`src/codegraphcontext/tools/handlers/indexing_handlers.py` (the three indexing
dispatch entry points), together with theorems settling the frozen claims
about them.

Python values and effects are embedded explicitly: machine behaviour of
collaborators (filesystem, repository lister, estimator, job store, event
loop, git subprocess) is a record of functions returning `Except PyExn _`;
handlers additionally return a trace of the collaborator calls they made.
-/

deriving instance DecidableEq for Except

/-- A Python exception, as observed by the handlers: `subprocess.TimeoutExpired`
is distinguished because `index_repository` catches it separately; `ValueError`
is distinguished because `get_driver` raises it for the dependency-missing
case.  `msg` models `str(e)`. -/
inductive PyExn where
  | timeoutExpired (msg : String)
  | valueError (msg : String)
  | other (msg : String)
  deriving DecidableEq, Repr

/-- `str(e)` of an exception. -/
def PyExn.msg : PyExn → String
  | .timeoutExpired m => m
  | .valueError m => m
  | .other m => m

/-- A Python value as it occurs in the dictionaries returned by the handlers
and in the keyword arguments of the FalkorDB constructor. Floats are embedded
as rationals. -/
inductive PyVal where
  | str (s : String)
  | int (n : Int)
  | bool (b : Bool)
  | rat (q : ℚ)
  deriving DecidableEq, Repr

/-- A Python dict with string keys, in insertion order. -/
abbrev PyDict := List (String × PyVal)

/-- Digit run of Python's `int()` grammar: digits in which a single underscore
may stand between two digits (accumulator `acc` carries the value so far; the
head of the list must already have been checked to be a digit). -/
def parseDigitsAux : List Char → Nat → Option Nat
  | [], acc => some acc
  | c :: rest, acc =>
    if c.isDigit then parseDigitsAux rest (acc * 10 + (c.toNat - 48))
    else if c = '_' then
      match rest with
      | [] => none
      | d :: _ => if d.isDigit then parseDigitsAux rest acc else none
    else none

/-- Nonempty digit run starting with a digit. -/
def parseDigits (cs : List Char) : Option Nat :=
  match cs with
  | c :: _ => if c.isDigit then parseDigitsAux cs 0 else none
  | [] => none

/-- ASCII whitespace as stripped by Python's `str.strip()` and `int()`. -/
def pyIsSpace (c : Char) : Bool :=
  c = ' ' || c = '\t' || c = '\n' || c = '\r' || c = Char.ofNat 11 || c = Char.ofNat 12

/-- Strip whitespace from both ends of a character list. -/
def pyStripL (l : List Char) : List Char :=
  ((l.dropWhile pyIsSpace).reverse.dropWhile pyIsSpace).reverse

/-- Python `s.strip()`. -/
def pyStrip (s : String) : String :=
  String.mk (pyStripL s.data)

/-- ASCII lower-casing of one character. -/
def pyLowerChar (c : Char) : Char :=
  if 'A' ≤ c ∧ c ≤ 'Z' then Char.ofNat (c.toNat + 32) else c

/-- Python `s.lower()` (ASCII). -/
def pyLower (s : String) : String :=
  String.mk (s.data.map pyLowerChar)

/-- Python `int(s)`: surrounding whitespace stripped, optional sign, digits
with optional single underscores between digits.  `none` models the
`ValueError` that `int()` raises on anything else. -/
def pyParseInt (s : String) : Option Int :=
  match pyStripL s.data with
  | '-' :: rest => (parseDigits rest).map (fun n => -(n : Int))
  | '+' :: rest => (parseDigits rest).map (fun n => (n : Int))
  | cs => (parseDigits cs).map (fun n => (n : Int))

/-- Replacement scan with explicit fuel (one unit per consumed character, so
`l.length` fuel always suffices): at each position, when the pattern is a
prefix, emit the replacement and skip the pattern; otherwise keep the
character. -/
def pyReplaceCore : Nat → List Char → List Char → List Char → List Char
  | 0, _, _, l => l
  | _ + 1, _, _, [] => []
  | fuel + 1, pat, rep, c :: rest =>
    if pat ≠ [] ∧ pat.isPrefixOf (c :: rest) then
      rep ++ pyReplaceCore fuel pat rep (rest.drop (pat.length - 1))
    else
      c :: pyReplaceCore fuel pat rep rest

/-- Python `s.replace(pat, rep)` on character lists: left-to-right,
non-overlapping.  An empty pattern leaves the list unchanged (the source only
ever calls this with a non-empty token). -/
def pyReplaceList (pat rep l : List Char) : List Char :=
  pyReplaceCore l.length pat rep l

/-- Python `s.replace(pat, rep)` on strings. -/
def pyReplace (s pat rep : String) : String :=
  String.mk (pyReplaceList pat.data rep.data s.data)

/-- Whether `sub` occurs as a contiguous run inside `l`. -/
def containsSub (sub : List Char) : List Char → Bool
  | [] => sub.isEmpty
  | c :: rest => sub.isPrefixOf (c :: rest) || containsSub sub rest

/-- Whether the string `sub` occurs as a substring of `s`. -/
def strContainsSub (s sub : String) : Bool :=
  containsSub sub.data s.data

/-- Python `int(q)` for a float value: truncation toward zero. -/
def pyTrunc (q : ℚ) : Int :=
  if 0 ≤ q then ⌊q⌋ else ⌈q⌉

/-- Python `round(q, 2)` modelled with round-half-to-even at two decimals. -/
def round2 (q : ℚ) : ℚ :=
  let r := q * 100
  let fl := ⌊r⌋
  let d := r - (fl : ℚ)
  let n : Int :=
    if d < 1 / 2 then fl
    else if 1 / 2 < d then fl + 1
    else if fl % 2 = 0 then fl else fl + 1
  (n : ℚ) / 100

/-- The duration string built by every handler:
`f"{int(t // 60)}m {int(t % 60)}s" if t >= 60 else f"{int(t)}s"`. -/
def durationHuman (t : ℚ) : String :=
  if 60 ≤ t then
    toString (⌊t / 60⌋) ++ "m " ++ toString (pyTrunc (t - 60 * (⌊t / 60⌋ : ℚ))) ++ "s"
  else
    toString (pyTrunc t) ++ "s"

/-! ## Connection manager: `database_falkordb_remote.py` -/

/-- The `FALKORDB_*` environment variables as seen by the manager: `none` is
an unset variable, `some s` a variable set to `s` (possibly empty). -/
structure RemoteEnv where
  host : Option String
  port : Option String
  password : Option String
  username : Option String
  ssl : Option String
  graphName : Option String
  deriving DecidableEq, Repr

/-- The configuration fields frozen on the manager instance by `__init__`. -/
structure RemoteConfig where
  host : String
  port : Int
  password : Option String
  username : Option String
  ssl : Bool
  graphName : String
  deriving DecidableEq, Repr

/-- Python `os.getenv(k) or None`: an empty value collapses to `None`. -/
def pyOrNone : Option String → Option String
  | some "" => none
  | x => x

/-- `os.getenv('FALKORDB_SSL', 'false').lower() in ('true', '1', 'yes')`. -/
def pySslParse (s : String) : Bool :=
  let l := pyLower s
  l = "true" || l = "1" || l = "yes"

/-- `FalkorDBRemoteManager.__new__` + `__init__`: when the singleton instance
already carries a configuration (`_initialized` set), `__init__` returns
early and the stored configuration is kept; otherwise the environment is read,
where `int(os.getenv('FALKORDB_PORT', '6379'))` raises `ValueError` on a
non-integer string. -/
def constructManager (env : RemoteEnv) (st : Option RemoteConfig) :
    Except PyExn RemoteConfig :=
  match st with
  | some cfg => .ok cfg
  | none =>
    let portStr := env.port.getD "6379"
    match pyParseInt portStr with
    | none =>
      .error (.valueError
        ("invalid literal for int() with base 10: '" ++ portStr ++ "'"))
    | some p =>
      .ok
        { host := env.host.getD "localhost"
          port := p
          password := pyOrNone env.password
          username := pyOrNone env.username
          ssl := pySslParse (env.ssl.getD "false")
          graphName := env.graphName.getD "codegraph" }

/-- `FalkorDBRemoteManager.validate_config`, a pure function of the
`FALKORDB_HOST` and `FALKORDB_PORT` environment variables. -/
def validate_config (hostE portE : Option String) : Bool × Option String :=
  match hostE with
  | none => (false, some "FALKORDB_HOST environment variable is not set.")
  | some h =>
    if h = "" then (false, some "FALKORDB_HOST environment variable is not set.")
    else
      let portStr := portE.getD "6379"
      match pyParseInt portStr with
      | none =>
        (false, some ("FALKORDB_PORT must be a number, got '" ++ portStr ++ "'."))
      | some p =>
        if ¬ (1 ≤ p ∧ p ≤ 65535) then
          (false, some ("FALKORDB_PORT must be between 1 and 65535, got "
            ++ toString p ++ "."))
        else (true, none)

/-- The keyword-argument dictionary assembled by `get_driver` (and
`test_connection`): `host` and `port` always; `password`, `username` only when
set; `ssl` only when true. -/
def buildKwargs (cfg : RemoteConfig) : List (String × PyVal) :=
  [("host", .str cfg.host), ("port", .int cfg.port)]
  ++ (match cfg.password with
      | some pw => [("password", .str pw)]
      | none => [])
  ++ (match cfg.username with
      | some un => [("username", .str un)]
      | none => [])
  ++ (if cfg.ssl then [("ssl", .bool true)] else [])

/-- The manager's cached connection state: the class attributes `_driver` and
`_graph`.  Handles are opaque numeric identifiers. -/
structure ConnState where
  driver : Option Nat
  graph : Option Nat
  deriving DecidableEq, Repr

/-- Behaviour of the FalkorDB client library during one `get_driver` attempt:
whether `from falkordb import FalkorDB` succeeds, and what
`FalkorDB(**kwargs)`, `db.select_graph(name)` and `graph.query("RETURN 1")`
do. -/
structure ConnBehavior where
  importOk : Bool
  newDb : List (String × PyVal) → Except PyExn Nat
  selectGraph : Nat → String → Except PyExn Nat
  probe : Nat → Except PyExn Unit

/-- `FalkorDBRemoteManager.get_driver`, single-threaded view of the
double-checked locking: when `_driver` is set the cached `_graph` is wrapped
and returned; otherwise the client is imported (`ImportError` becomes
`ValueError "FalkorDB client missing."`), constructed with `buildKwargs`,
the graph selected and probed.  The returned state is the state of `_driver`
and `_graph` at the point of return or raise — note the source assigns
`self._driver` and `self._graph` before the probe and has no cleanup in its
`except` clause. -/
def get_driver (cfg : RemoteConfig) (b : ConnBehavior) (st : ConnState) :
    ConnState × Except PyExn (Option Nat) :=
  match st.driver with
  | some _ => (st, .ok st.graph)
  | none =>
    if b.importOk = false then
      (st, .error (.valueError "FalkorDB client missing."))
    else
      match b.newDb (buildKwargs cfg) with
      | .error e => (st, .error e)
      | .ok d =>
        let st1 : ConnState := { st with driver := some d }
        match b.selectGraph d cfg.graphName with
        | .error e => (st1, .error e)
        | .ok g =>
          let st2 : ConnState := { st1 with graph := some g }
          match b.probe g with
          | .error e => (st2, .error e)
          | .ok _ => (st2, .ok st2.graph)

/-- `FalkorDBRemoteManager.close_driver`: idempotently clears both handles. -/
def close_driver (_st : ConnState) : ConnState :=
  { driver := none, graph := none }

/-- `FalkorDBRemoteManager.is_connected`: reads `self._graph`; when present,
runs the liveness query inside `try/except Exception` and returns a boolean;
the `Except` in the result type records whether an exception escapes. -/
def is_connected (st : ConnState) (q : Nat → Except PyExn Unit) :
    Except PyExn Bool :=
  match st.graph with
  | none => .ok false
  | some g =>
    match q g with
    | .ok _ => .ok true
    | .error _ => .ok false

/-! ## Indexing handlers: `indexing_handlers.py` -/

/-- One collaborator call made by a handler, recorded in the trace. -/
inductive Effect where
  | listRepos
  | estimate (path : String)
  | createJob (path : String) (isDep : Bool)
  | updateJob (jobId : String) (files : Int) (dur : ℚ)
  | submitWork (path : String) (isDep : Bool) (jobId : String)
  | gitClone (url : String) (branch : String) (dest : String)
  | locatePackage (name : String) (lang : String)
  deriving DecidableEq, Repr

/-- Whether an effect is a call to the estimator or to the job store
(`create_job` / `update_job`). -/
def Effect.isEstimatorOrJobStore : Effect → Bool
  | .estimate _ => true
  | .createJob _ _ => true
  | .updateJob _ _ _ => true
  | _ => false

/-- Whether an effect is a work submission onto the event loop. -/
def Effect.isSubmit : Effect → Bool
  | .submitWork _ _ _ => true
  | _ => false

abbrev Trace := List Effect

/-- One entry of the repository lister's `{"repositories": [...]}` payload:
`path` is always present (the handlers subscript `repo["path"]`), `name` and
`is_dependency` are read with `.get` and may be absent. -/
structure RepoRecord where
  path : String
  name : Option String
  isDependency : Bool
  deriving DecidableEq, Repr

/-- Outcome of the `git clone` subprocess when it terminates in time. -/
structure CloneResult where
  returncode : Int
  stderr : String
  deriving DecidableEq, Repr

/-- Behaviour of every collaborator the handlers call.  Each call may raise. -/
structure Collabs where
  resolve : String → Except PyExn String
  pathExists : String → Except PyExn Bool
  listRepos : Except PyExn (List RepoRecord)
  estimate : String → Except PyExn (Int × ℚ)
  createJob : String → Bool → Except PyExn String
  updateJob : String → Int → ℚ → Except PyExn Unit
  submitWork : String → Bool → String → Except PyExn Unit
  runClone : String → String → String → Except PyExn CloneResult
  locatePackage : Option String → String → Except PyExn (Option String)
  osPathExists : String → Except PyExn Bool

/-- The dedup loop shared by `index_repository` and `add_code_to_graph`:
`for repo in indexed_repos: if Path(repo["path"]).resolve() == path_obj:
return`.  Returns whether a match was found; a `resolve` failure on the way
propagates. -/
def findDup (c : Collabs) : List RepoRecord → String → Except PyExn Bool
  | [], _ => .ok false
  | r :: rest, p =>
    match c.resolve r.path with
    | .error e => .error e
    | .ok rp => if rp = p then .ok true else findDup c rest p

/-- Result of `urllib.parse.urlparse` restricted to the fields the source
reads: `scheme`, `hostname` (empty string when absent), `port`, `path`. -/
structure ParsedUrl where
  scheme : String
  hostname : String
  port : Option Nat
  path : String
  deriving DecidableEq, Repr

/-- The segment before and after the first occurrence of `sep`, when `sep`
occurs. -/
def splitFirstL (sep : List Char) : List Char → Option (List Char × List Char)
  | [] => none
  | c :: rest =>
    if sep ≠ [] ∧ sep.isPrefixOf (c :: rest) then
      some ([], rest.drop (sep.length - 1))
    else
      match splitFirstL sep rest with
      | some (a, b) => some (c :: a, b)
      | none => none

/-- The segment after the last occurrence of the character `sep` (the whole
list when `sep` does not occur). -/
def afterLastChar (sep : Char) (l : List Char) : List Char :=
  (l.reverse.takeWhile (· ≠ sep)).reverse

/-- A non-empty all-digit run read as a port number. -/
def portOfChars (l : List Char) : Option Nat :=
  if l ≠ [] ∧ l.all Char.isDigit then
    some (l.foldl (fun a c => a * 10 + (c.toNat - 48)) 0)
  else none

/-- Whether `l` ends with `suffix`. -/
def endsWithL (suffix l : List Char) : Bool :=
  suffix.reverse.isPrefixOf l.reverse

/-- `urllib.parse.urlparse` for the `scheme://netloc/path` shapes the handler
works with: without `://` everything is path; otherwise the netloc runs to the
first `/`, the hostname is the part of the netloc after the last `@` and
before a `:`, lowercased. -/
def urlparse (u : String) : ParsedUrl :=
  match splitFirstL "://".data u.data with
  | none => { scheme := "", hostname := "", port := none, path := u }
  | some (sch, after) =>
    let netloc := after.takeWhile (· ≠ '/')
    let path := after.drop netloc.length
    let hostport := afterLastChar '@' netloc
    match splitFirstL [':'] hostport with
    | none =>
      { scheme := pyLower (String.mk sch), hostname := pyLower (String.mk hostport),
        port := none, path := String.mk path }
    | some (h, p) =>
      { scheme := pyLower (String.mk sch), hostname := pyLower (String.mk h),
        port := portOfChars p, path := String.mk path }

/-- `parsed.path.rstrip("/")`. -/
def rstripSlashes (s : String) : String :=
  String.mk (s.data.reverse.dropWhile (· = '/')).reverse

/-- `repo_name = parsed.path.rstrip("/").split("/")[-1]` followed by
stripping a trailing `.git`. -/
def deriveRepoName (u : String) : String :=
  let p := (rstripSlashes (urlparse u).path).data
  let last := afterLastChar '/' p
  if endsWithL ".git".data last then String.mk (last.take (last.length - 4))
  else String.mk last

/-- The clone URL: when a non-empty `GIT_TOKEN` is present and the URL has a
hostname, the token is embedded in the user-info position, keeping scheme,
explicit port and path; otherwise the URL is used as-is. -/
def buildCloneUrl (u : String) (gitToken : Option String) : String :=
  let parsed := urlparse u
  match gitToken with
  | none => u
  | some tok =>
    if tok ≠ "" ∧ parsed.hostname ≠ "" then
      parsed.scheme ++ "://" ++ tok ++ "@" ++ parsed.hostname
        ++ (match parsed.port with
            | some n => if n ≠ 0 then ":" ++ toString n else ""
            | none => "")
        ++ parsed.path
    else u

/-- `f"{package_name}"` for an `args.get` result that may be `None`. -/
def pyShow : Option String → String
  | some s => s
  | none => "None"

/-- The success payload common to all three handlers (the caller appends or
prepends its entry-specific fields). -/
def estimateFields (files : Int) (secs : ℚ) (jobId : String) : PyDict :=
  [("estimated_files", .int files),
   ("estimated_duration_seconds", .rat (round2 secs)),
   ("estimated_duration_human", .str (durationHuman secs)),
   ("instructions", .str ("Use 'check_job_status' with job_id '" ++ jobId
      ++ "' to monitor progress"))]

/-- Body of the `try` block of `index_repository`: name derivation, dedup
against the resolved clone directory, token injection, clone subprocess,
estimate, job creation and update, work submission. -/
def indexRepoTry (c : Collabs) (gitToken : Option String) (url : String)
    (branch : String) (isDep : Bool) : Trace × Except PyExn PyDict :=
  let repoName := deriveRepoName url
  if repoName = "" then
    ([], .ok [("error", .str ("Could not derive repository name from URL: " ++ url))])
  else
    let clonePathStr := "/workspace/" ++ repoName
    match c.resolve clonePathStr with
    | .error e => ([], .error e)
    | .ok pObj =>
      match c.listRepos with
      | .error e => ([.listRepos], .error e)
      | .ok repos =>
        match findDup c repos pObj with
        | .error e => ([.listRepos], .error e)
        | .ok true =>
          ([.listRepos], .ok
            [("success", .bool false),
             ("message", .str ("Repository '" ++ repoName
                ++ "' is already indexed at " ++ pObj ++ "."))])
        | .ok false =>
          let cloneUrl := buildCloneUrl url gitToken
          let tr1 : Trace := [.listRepos, .gitClone cloneUrl branch clonePathStr]
          match c.runClone cloneUrl branch clonePathStr with
          | .error e => (tr1, .error e)
          | .ok res =>
            if res.returncode ≠ 0 then
              let stderr1 :=
                match gitToken with
                | some tok => if tok ≠ "" then pyReplace res.stderr tok "***" else res.stderr
                | none => res.stderr
              (tr1, .ok [("error", .str ("git clone failed: " ++ pyStrip stderr1))])
            else
              match c.estimate pObj with
              | .error e => (tr1 ++ [.estimate pObj], .error e)
              | .ok (files, secs) =>
                match c.createJob pObj isDep with
                | .error e => (tr1 ++ [.estimate pObj, .createJob pObj isDep], .error e)
                | .ok jobId =>
                  let tr2 := tr1 ++ [.estimate pObj, .createJob pObj isDep,
                    .updateJob jobId files secs]
                  match c.updateJob jobId files secs with
                  | .error e => (tr2, .error e)
                  | .ok _ =>
                    match c.submitWork pObj isDep jobId with
                    | .error e => (tr2 ++ [.submitWork pObj isDep jobId], .error e)
                    | .ok _ =>
                      (tr2 ++ [.submitWork pObj isDep jobId], .ok
                        ([("success", .bool true), ("job_id", .str jobId),
                          ("repository", .str repoName),
                          ("clone_path", .str pObj),
                          ("branch", .str branch),
                          ("message", .str ("Cloned '" ++ repoName
                             ++ "' and started indexing"))]
                         ++ estimateFields files secs jobId))

/-- `index_repository`: the falsy-URL check precedes the `try`; the `except
subprocess.TimeoutExpired` clause precedes the blanket `except Exception`. -/
def index_repository (c : Collabs) (gitToken : Option String)
    (urlArg : Option String) (branchArg : Option String) (isDep : Bool) :
    Trace × Except PyExn PyDict :=
  match urlArg with
  | none => ([], .ok [("error", .str "The 'url' parameter is required.")])
  | some url =>
    if url = "" then ([], .ok [("error", .str "The 'url' parameter is required.")])
    else
      match indexRepoTry c gitToken url (branchArg.getD "main") isDep with
      | (tr, .ok d) => (tr, .ok d)
      | (tr, .error (.timeoutExpired _)) =>
        (tr, .ok [("error", .str ("git clone timed out after 300 seconds for " ++ url))])
      | (tr, .error e) =>
        (tr, .ok [("error", .str ("Failed to clone and index repository: " ++ e.msg))])

/-- Body of the `try` block of `add_code_to_graph`: resolve, existence check,
dedup by resolved path, estimate, job creation and update, work submission.
`Path(None)` raises `TypeError`. -/
def addCodeTry (c : Collabs) (pathArg : Option String) (isDep : Bool) :
    Trace × Except PyExn PyDict :=
  match pathArg with
  | none => ([], .error (.other
      "argument should be a str or an os.PathLike object where __fspath__ returns a str, not <class 'NoneType'>"))
  | some p =>
    match c.resolve p with
    | .error e => ([], .error e)
    | .ok pObj =>
      match c.pathExists pObj with
      | .error e => ([], .error e)
      | .ok false =>
        ([], .ok [("success", .bool true), ("status", .str "path_not_found"),
          ("message", .str ("Path '" ++ p ++ "' does not exist."))])
      | .ok true =>
        match c.listRepos with
        | .error e => ([.listRepos], .error e)
        | .ok repos =>
          match findDup c repos pObj with
          | .error e => ([.listRepos], .error e)
          | .ok true =>
            ([.listRepos], .ok
              [("success", .bool false),
               ("message", .str ("Repository '" ++ p ++ "' is already indexed."))])
          | .ok false =>
            match c.estimate pObj with
            | .error e => ([.listRepos, .estimate pObj], .error e)
            | .ok (files, secs) =>
              match c.createJob pObj isDep with
              | .error e => ([.listRepos, .estimate pObj, .createJob pObj isDep], .error e)
              | .ok jobId =>
                let tr2 : Trace := [.listRepos, .estimate pObj, .createJob pObj isDep,
                  .updateJob jobId files secs]
                match c.updateJob jobId files secs with
                | .error e => (tr2, .error e)
                | .ok _ =>
                  match c.submitWork pObj isDep jobId with
                  | .error e => (tr2 ++ [.submitWork pObj isDep jobId], .error e)
                  | .ok _ =>
                    (tr2 ++ [.submitWork pObj isDep jobId], .ok
                      ([("success", .bool true), ("job_id", .str jobId),
                        ("message", .str ("Background processing started for " ++ pObj))]
                       ++ estimateFields files secs jobId))

/-- `add_code_to_graph`: the whole body runs inside
`try/except Exception`. -/
def add_code_to_graph (c : Collabs) (pathArg : Option String) (isDep : Bool) :
    Trace × Except PyExn PyDict :=
  match addCodeTry c pathArg isDep with
  | (tr, .ok d) => (tr, .ok d)
  | (tr, .error e) =>
    (tr, .ok [("error", .str ("Failed to start background processing: " ++ e.msg))])

/-- Body of the `try` block of `add_package_to_graph`: dedup by name against
dependency records, package location, existence check, estimate, job creation
and update, work submission.  The dedup condition is
`repo.get("is_dependency") and (repo.get("name") == package_name or
repo.get("name") == f"{package_name}.py")`. -/
def addPackageTry (c : Collabs) (pkgArg : Option String) (lang : String)
    (isDep : Bool) : Trace × Except PyExn PyDict :=
  match c.listRepos with
  | .error e => ([.listRepos], .error e)
  | .ok repos =>
    if repos.any (fun r => r.isDependency
        && (r.name == pkgArg || r.name == some (pyShow pkgArg ++ ".py"))) then
      ([.listRepos], .ok
        [("success", .bool false),
         ("message", .str ("Package '" ++ pyShow pkgArg ++ "' is already indexed."))])
    else
      match c.locatePackage pkgArg lang with
      | .error e => ([.listRepos, .locatePackage (pyShow pkgArg) lang], .error e)
      | .ok found =>
        let tr1 : Trace := [.listRepos, .locatePackage (pyShow pkgArg) lang]
        match found with
        | none =>
          (tr1, .ok [("error", .str ("Could not find package '" ++ pyShow pkgArg
            ++ "' for language '" ++ lang ++ "'. Make sure it's installed."))])
        | some pkgPath =>
          if pkgPath = "" then
            (tr1, .ok [("error", .str ("Could not find package '" ++ pyShow pkgArg
              ++ "' for language '" ++ lang ++ "'. Make sure it's installed."))])
          else
            match c.osPathExists pkgPath with
            | .error e => (tr1, .error e)
            | .ok false =>
              (tr1, .ok [("error", .str ("Package path '" ++ pkgPath
                ++ "' does not exist"))])
            | .ok true =>
              match c.estimate pkgPath with
              | .error e => (tr1 ++ [.estimate pkgPath], .error e)
              | .ok (files, secs) =>
                match c.createJob pkgPath isDep with
                | .error e => (tr1 ++ [.estimate pkgPath, .createJob pkgPath isDep], .error e)
                | .ok jobId =>
                  let tr2 := tr1 ++ [.estimate pkgPath, .createJob pkgPath isDep,
                    .updateJob jobId files secs]
                  match c.updateJob jobId files secs with
                  | .error e => (tr2, .error e)
                  | .ok _ =>
                    match c.submitWork pkgPath isDep jobId with
                    | .error e => (tr2 ++ [.submitWork pkgPath isDep jobId], .error e)
                    | .ok _ =>
                      (tr2 ++ [.submitWork pkgPath isDep jobId], .ok
                        ([("success", .bool true), ("job_id", .str jobId),
                          ("package_name", .str (pyShow pkgArg)),
                          ("discovered_path", .str pkgPath),
                          ("message", .str ("Background processing started for package '"
                             ++ pyShow pkgArg ++ "'"))]
                         ++ estimateFields files secs jobId))

/-- `add_package_to_graph`: the falsy-language check precedes the `try`; the
whole body runs inside `try/except Exception`. -/
def add_package_to_graph (c : Collabs) (pkgArg : Option String)
    (langArg : Option String) (isDep : Bool) : Trace × Except PyExn PyDict :=
  match langArg with
  | none => ([], .ok [("error", .str "The 'language' parameter is required.")])
  | some lang =>
    if lang = "" then
      ([], .ok [("error", .str "The 'language' parameter is required.")])
    else
      match addPackageTry c pkgArg lang isDep with
      | (tr, .ok d) => (tr, .ok d)
      | (tr, .error e) =>
        (tr, .ok [("error", .str ("Failed to start background processing for package '"
          ++ pyShow pkgArg ++ "': " ++ e.msg))])

/-! ## Helper lemmas -/

lemma isPrefixOf_append_self (l t : List Char) : l.isPrefixOf (l ++ t) = true := by
  induction l with
  | nil => simp [List.isPrefixOf]
  | cons c cs ih => simp [List.isPrefixOf, ih]

lemma containsSub_append_self (a sub b : List Char) :
    containsSub sub (a ++ sub ++ b) = true := by
  induction a with
  | nil =>
    cases sub with
    | nil => cases b <;> simp [containsSub, List.isPrefixOf]
    | cons c cs =>
      show containsSub (c :: cs) (c :: (cs ++ b)) = true
      simp only [containsSub, List.isPrefixOf, beq_self_eq_true, Bool.true_and,
        isPrefixOf_append_self cs b, Bool.true_or]
  | cons x xs ih =>
    show containsSub sub (x :: (xs ++ sub ++ b)) = true
    simp only [containsSub, ih, Bool.or_true]

lemma strContainsSub_append (a s b : String) : strContainsSub (a ++ s ++ b) s = true := by
  show containsSub s.data ((a ++ s ++ b).data) = true
  rw [String.data_append, String.data_append]
  exact containsSub_append_self a.data s.data b.data

/-! ## Claims about the connection manager -/

/-- A configuration on which construction and graph selection succeed but the
liveness probe `graph.query("RETURN 1")` raises. -/
def cfgProbe : RemoteConfig :=
  { host := "db.example.com", port := 6379, password := none, username := none,
    ssl := false, graphName := "codegraph" }

/-- Client behaviour: constructor returns handle 1, `select_graph` returns
handle 2, the probe raises. -/
def behProbeFails : ConnBehavior :=
  { importOk := true
    newDb := fun _ => .ok 1
    selectGraph := fun _ _ => .ok 2
    probe := fun _ => .error (.other "Connection reset by peer") }

/-- Client behaviour in which every fresh connection attempt fails. -/
def behRefuse : ConnBehavior :=
  { importOk := true
    newDb := fun _ => .error (.other "connection refused")
    selectGraph := fun _ _ => .error (.other "connection refused")
    probe := fun _ => .error (.other "connection refused") }

/-- Claim C1 (code bug evidence): when the liveness probe raises on a fresh
`get_driver` call, the exception does propagate, but `_driver` and `_graph`
remain assigned to the failed attempt's handles — and the next `get_driver`
call, even against a client through which no connection could possibly be
opened, returns a wrapper over the stale graph instead of retrying from
scratch.  This contradicts the claim that no connection state remains cached
and that the next call attempts a fresh connection. -/
theorem c1_get_driver_probe_failure_retains_state :
    get_driver cfgProbe behProbeFails { driver := none, graph := none }
      = ({ driver := some 1, graph := some 2 },
         .error (.other "Connection reset by peer"))
    ∧ get_driver cfgProbe behRefuse { driver := some 1, graph := some 2 }
      = ({ driver := some 1, graph := some 2 }, .ok (some 2)) := by
  constructor <;> rfl

/-- Claim C6: `validate_config` is a pure function of the host and port
variables; a non-empty host with a port parsing into [1, 65535] validates;
a non-parsing port yields a failure message containing the raw port string;
an out-of-range port yields a failure message containing the offending value;
a missing or empty host yields a failure message naming `FALKORDB_HOST`. -/
theorem c6_validate_config (hostE portE : Option String) :
    ((hostE = none ∨ hostE = some "") →
      validate_config hostE portE
        = (false, some "FALKORDB_HOST environment variable is not set.")
      ∧ strContainsSub "FALKORDB_HOST environment variable is not set."
          "FALKORDB_HOST" = true)
    ∧ (∀ h, hostE = some h → h ≠ "" →
        ((∀ p, pyParseInt (portE.getD "6379") = some p → 1 ≤ p → p ≤ 65535 →
            validate_config hostE portE = (true, none))
         ∧ (pyParseInt (portE.getD "6379") = none →
            validate_config hostE portE
              = (false, some ("FALKORDB_PORT must be a number, got '"
                  ++ portE.getD "6379" ++ "'."))
            ∧ strContainsSub ("FALKORDB_PORT must be a number, got '"
                ++ portE.getD "6379" ++ "'.") (portE.getD "6379") = true)
         ∧ (∀ p, pyParseInt (portE.getD "6379") = some p → ¬ (1 ≤ p ∧ p ≤ 65535) →
            validate_config hostE portE
              = (false, some ("FALKORDB_PORT must be between 1 and 65535, got "
                  ++ toString p ++ "."))
            ∧ strContainsSub ("FALKORDB_PORT must be between 1 and 65535, got "
                ++ toString p ++ ".") (toString p) = true))) := by
  constructor
  · rintro (rfl | rfl) <;>
      exact ⟨rfl, by decide⟩
  · rintro h rfl hne
    refine ⟨?_, ?_, ?_⟩
    · intro p hp h1 h2
      simp [validate_config, hne, hp, h1, h2]
    · intro hp
      constructor
      · simp [validate_config, hne, hp]
      · have := strContainsSub_append "FALKORDB_PORT must be a number, got '"
          (portE.getD "6379") "'."
        simpa using this
    · intro p hp hrange
      constructor
      · simp [validate_config, hne, hp, hrange]
      · have := strContainsSub_append "FALKORDB_PORT must be between 1 and 65535, got "
          (toString p) "."
        simpa using this

/-- Claim C6 witness: concrete environments exercising each branch of the
theorem. -/
theorem c6_validate_config_witness :
    validate_config (some "myhost.example.com") (some "6379") = (true, none)
    ∧ validate_config none (some "6379")
        = (false, some "FALKORDB_HOST environment variable is not set.")
    ∧ validate_config (some "h") (some "abc")
        = (false, some "FALKORDB_PORT must be a number, got 'abc'.")
    ∧ validate_config (some "h") (some "70000")
        = (false, some "FALKORDB_PORT must be between 1 and 65535, got 70000.") := by
  refine ⟨?_, ?_, ?_, ?_⟩
  · exact ((c6_validate_config (some "myhost.example.com") (some "6379")).2
      "myhost.example.com" rfl (by decide)).1 6379 (by decide) (by decide) (by decide)
  · exact ((c6_validate_config none (some "6379")).1 (Or.inl rfl)).1
  · exact (((c6_validate_config (some "h") (some "abc")).2 "h" rfl (by decide)).2.1
      (by decide)).1
  · exact (((c6_validate_config (some "h") (some "70000")).2 "h" rfl (by decide)).2.2
      70000 (by decide) (by decide)).1

/-- Claim C7: the keyword arguments assembled for the client constructor
contain exactly the optional fields that are set: host-only configurations
produce exactly `{host, port}`; `password`, `username` appear with their exact
values exactly when set; `ssl` appears (as `True`) exactly when enabled. -/
theorem c7_build_kwargs (cfg : RemoteConfig) :
    (cfg.password = none → cfg.username = none → cfg.ssl = false →
      buildKwargs cfg = [("host", .str cfg.host), ("port", .int cfg.port)])
    ∧ (∀ pw, cfg.password = some pw → ("password", PyVal.str pw) ∈ buildKwargs cfg)
    ∧ (cfg.password = none → ∀ v, ("password", v) ∉ buildKwargs cfg)
    ∧ (∀ un, cfg.username = some un → ("username", PyVal.str un) ∈ buildKwargs cfg)
    ∧ (cfg.username = none → ∀ v, ("username", v) ∉ buildKwargs cfg)
    ∧ (cfg.ssl = true → ("ssl", PyVal.bool true) ∈ buildKwargs cfg)
    ∧ (cfg.ssl = false → ∀ v, ("ssl", v) ∉ buildKwargs cfg) := by
  refine ⟨?_, ?_, ?_, ?_, ?_, ?_, ?_⟩
  · intro hp hu hs
    simp [buildKwargs, hp, hu, hs]
  · intro pw hp
    rcases hu : cfg.username with _ | un <;> rcases hs : cfg.ssl <;>
      simp [buildKwargs, hp, hu, hs]
  · intro hp v
    rcases hu : cfg.username with _ | un <;> rcases hs : cfg.ssl <;>
      simp [buildKwargs, hp, hu, hs]
  · intro un hu
    rcases hp : cfg.password with _ | pw <;> rcases hs : cfg.ssl <;>
      simp [buildKwargs, hp, hu, hs]
  · intro hu v
    rcases hp : cfg.password with _ | pw <;> rcases hs : cfg.ssl <;>
      simp [buildKwargs, hp, hu, hs]
  · intro hs
    rcases hp : cfg.password with _ | pw <;> rcases hu : cfg.username with _ | un <;>
      simp [buildKwargs, hp, hu, hs]
  · intro hs v
    rcases hp : cfg.password with _ | pw <;> rcases hu : cfg.username with _ | un <;>
      simp [buildKwargs, hp, hu, hs]

/-- A host-only configuration (the one `__init__` builds when only
`FALKORDB_HOST` is set). -/
def cfgHostOnly : RemoteConfig :=
  { host := "simple.host", port := 6379, password := none, username := none,
    ssl := false, graphName := "codegraph" }

/-- A fully-populated configuration. -/
def cfgFull : RemoteConfig :=
  { host := "remote.host", port := 6380, password := some "pass",
    username := some "user", ssl := true, graphName := "testgraph" }

/-- Claim C7 witness: the host-only configuration yields exactly
`{host, port}`; the fully-set configuration carries the optional keys with
their exact values. -/
theorem c7_build_kwargs_witness :
    buildKwargs cfgHostOnly = [("host", .str "simple.host"), ("port", .int 6379)]
    ∧ ("password", PyVal.str "pass") ∈ buildKwargs cfgFull
    ∧ ("username", PyVal.str "user") ∈ buildKwargs cfgFull
    ∧ ("ssl", PyVal.bool true) ∈ buildKwargs cfgFull
    ∧ (∀ v, ("ssl", v) ∉ buildKwargs cfgHostOnly) := by
  refine ⟨(c7_build_kwargs cfgHostOnly).1 rfl rfl rfl,
    (c7_build_kwargs cfgFull).2.1 "pass" rfl,
    (c7_build_kwargs cfgFull).2.2.2.1 "user" rfl,
    (c7_build_kwargs cfgFull).2.2.2.2.2.1 rfl,
    (c7_build_kwargs cfgHostOnly).2.2.2.2.2.2 rfl⟩

/-- Claim C8: `is_connected` never lets an exception escape; it is false
whenever nothing is cached, false whenever the liveness query raises, and true
exactly when a graph is cached and the query succeeds. -/
theorem c8_is_connected (st : ConnState) (q : Nat → Except PyExn Unit) :
    (∃ b, is_connected st q = .ok b)
    ∧ (st.graph = none → is_connected st q = .ok false)
    ∧ (∀ g e, st.graph = some g → q g = .error e → is_connected st q = .ok false)
    ∧ (∀ g, st.graph = some g → q g = .ok () → is_connected st q = .ok true) := by
  refine ⟨?_, ?_, ?_, ?_⟩
  · rcases hg : st.graph with _ | g
    · exact ⟨false, by simp [is_connected, hg]⟩
    · rcases hq : q g with e | u
      · exact ⟨false, by simp [is_connected, hg, hq]⟩
      · exact ⟨true, by simp [is_connected, hg, hq]⟩
  · intro hg
    simp [is_connected, hg]
  · intro g e hg hq
    simp [is_connected, hg, hq]
  · intro g hg hq
    simp [is_connected, hg, hq]

/-- Claim C8 witness: no cached graph, a raising query, and a succeeding
query, each at a concrete state. -/
theorem c8_is_connected_witness :
    is_connected { driver := none, graph := none } (fun _ => .ok ()) = .ok false
    ∧ is_connected { driver := some 1, graph := some 2 }
        (fun _ => .error (.other "disconnected")) = .ok false
    ∧ is_connected { driver := some 1, graph := some 2 } (fun _ => .ok ()) = .ok true := by
  refine ⟨(c8_is_connected _ _).2.1 rfl,
    (c8_is_connected _ _).2.2.1 2 (.other "disconnected") rfl rfl,
    (c8_is_connected _ _).2.2.2 2 rfl rfl⟩

/-- Claim C10: constructing the manager with the host variable unset succeeds
and defaults the host to `"localhost"` (given a well-formed port); a
non-integer port string makes `__init__` raise `ValueError`; once an instance
carries a configuration, reconstruction under any other environment returns
the stored configuration unchanged and cannot raise. -/
theorem c10_construct_manager (env env2 : RemoteEnv) (s : String) (cfg : RemoteConfig) :
    (env.host = none → (pyParseInt (env.port.getD "6379")).isSome →
      ∃ c, constructManager env none = .ok c ∧ c.host = "localhost")
    ∧ (env.port = some s → pyParseInt s = none →
      ∃ m, constructManager env none = .error (.valueError m))
    ∧ (constructManager env none = .ok cfg →
      constructManager env2 (some cfg) = .ok cfg) := by
  refine ⟨?_, ?_, ?_⟩
  · intro hh hp
    rcases hps : pyParseInt (env.port.getD "6379") with _ | p
    · rw [hps] at hp
      simp at hp
    · refine ⟨⟨env.host.getD "localhost", p, pyOrNone env.password,
        pyOrNone env.username, pySslParse (env.ssl.getD "false"),
        env.graphName.getD "codegraph"⟩, ?_, ?_⟩
      · simp [constructManager, hps]
      · simp [hh]
  · intro hport hp
    refine ⟨"invalid literal for int() with base 10: '" ++ s ++ "'", ?_⟩
    simp [constructManager, hport, hp]
  · intro _
    rfl

/-- Environment with every `FALKORDB_*` variable unset. -/
def envUnset : RemoteEnv :=
  { host := none, port := none, password := none, username := none,
    ssl := none, graphName := none }

/-- Environment with a non-integer port. -/
def envBadPort : RemoteEnv :=
  { host := some "h", port := some "abc", password := none, username := none,
    ssl := none, graphName := none }

/-- The configuration `__init__` freezes under `envUnset`. -/
def cfgDefault : RemoteConfig :=
  { host := "localhost", port := 6379, password := none, username := none,
    ssl := false, graphName := "codegraph" }

/-- Claim C10 witness: all-unset environment constructs with host
`"localhost"`; a non-integer port raises; a frozen instance ignores a changed
environment. -/
theorem c10_construct_manager_witness :
    (∃ c, constructManager envUnset none = .ok c ∧ c.host = "localhost")
    ∧ (∃ m, constructManager envBadPort none = .error (.valueError m))
    ∧ constructManager envBadPort (some cfgDefault) = .ok cfgDefault := by
  refine ⟨(c10_construct_manager envUnset envBadPort "abc" cfgDefault).1 rfl (by decide),
    (c10_construct_manager envBadPort envUnset "abc" cfgDefault).2.1 rfl (by decide),
    (c10_construct_manager envUnset envBadPort "abc" cfgDefault).2.2 (by decide)⟩

/-! ## Claims about the indexing handlers -/

lemma containsSub_append_right (a l sub : List Char) (h : containsSub sub l = true) :
    containsSub sub (a ++ l) = true := by
  induction a with
  | nil => simpa using h
  | cons x xs ih =>
    show containsSub sub (x :: (xs ++ l)) = true
    simp only [containsSub, ih, Bool.or_true]

lemma strContainsSub_append_right (a b sub : String)
    (h : strContainsSub b sub = true) : strContainsSub (a ++ b) sub = true := by
  show containsSub sub.data ((a ++ b).data) = true
  rw [String.data_append]
  exact containsSub_append_right a.data b.data sub.data h

/-- When each listed entry resolves and some listed entry resolves to the
candidate path, the dedup loop reports a match. -/
lemma findDup_of_mem (c : Collabs) (repos : List RepoRecord) (pObj : String)
    (hall : ∀ r ∈ repos, ∃ s, c.resolve r.path = .ok s)
    (hmem : ∃ r ∈ repos, c.resolve r.path = .ok pObj) :
    findDup c repos pObj = .ok true := by
  induction repos with
  | nil =>
    rcases hmem with ⟨r, hr, _⟩
    exact absurd hr (List.not_mem_nil r)
  | cons r0 rest ih =>
    obtain ⟨s0, hs0⟩ := hall r0 (List.mem_cons_self r0 rest)
    by_cases heq : s0 = pObj
    · subst heq
      simp [findDup, hs0]
    · rcases hmem with ⟨r, hr, hres⟩
      rcases List.mem_cons.mp hr with rfl | hr2
      · rw [hs0] at hres
        simp at hres
        exact absurd hres heq
      · have hrest := ih (fun r hr => hall r (List.mem_cons_of_mem _ hr)) ⟨r, hr2, hres⟩
        simp [findDup, hs0, heq, hrest]

/-- Claim C5: whatever the collaborators do — any of them may raise at any
point — each of the three entry points returns a dictionary and never lets an
exception propagate to its caller. -/
theorem c5_handlers_never_propagate (c : Collabs)
    (gitToken urlArg branchArg pathArg pkgArg langArg : Option String)
    (d1 d2 d3 : Bool) :
    (∃ tr d, index_repository c gitToken urlArg branchArg d1 = (tr, Except.ok d))
    ∧ (∃ tr d, add_code_to_graph c pathArg d2 = (tr, Except.ok d))
    ∧ (∃ tr d, add_package_to_graph c pkgArg langArg d3 = (tr, Except.ok d)) := by
  refine ⟨?_, ?_, ?_⟩
  · unfold index_repository
    split
    · exact ⟨_, _, rfl⟩
    · split
      · exact ⟨_, _, rfl⟩
      · split <;> exact ⟨_, _, rfl⟩
  · unfold add_code_to_graph
    split <;> exact ⟨_, _, rfl⟩
  · unfold add_package_to_graph
    split
    · exact ⟨_, _, rfl⟩
    · split
      · exact ⟨_, _, rfl⟩
      · split <;> exact ⟨_, _, rfl⟩

/-- Claim C9: a path that resolves but does not exist makes
`add_code_to_graph` return `{success: true, status: "path_not_found",
message naming the path}` with an empty effect trace — no estimator, job
store, or work-submission call. -/
theorem c9_add_code_path_not_found (c : Collabs) (p pObj : String) (dep : Bool)
    (hres : c.resolve p = .ok pObj)
    (hex : c.pathExists pObj = .ok false) :
    add_code_to_graph c (some p) dep
      = ([], .ok [("success", .bool true), ("status", .str "path_not_found"),
          ("message", .str ("Path '" ++ p ++ "' does not exist."))])
    ∧ ∀ e ∈ (add_code_to_graph c (some p) dep).1,
        e.isEstimatorOrJobStore = false ∧ e.isSubmit = false := by
  have h : add_code_to_graph c (some p) dep
      = ([], .ok [("success", .bool true), ("status", .str "path_not_found"),
          ("message", .str ("Path '" ++ p ++ "' does not exist."))]) := by
    simp [add_code_to_graph, addCodeTry, hres, hex]
  refine ⟨h, ?_⟩
  intro e he
  rw [h] at he
  exact absurd he (List.not_mem_nil e)

/-- Benign collaborator behaviour used as the base of witness scenarios. -/
def okC : Collabs :=
  { resolve := fun s => .ok s
    pathExists := fun _ => .ok true
    listRepos := .ok []
    estimate := fun _ => .ok (3, 10)
    createJob := fun _ _ => .ok "job-1"
    updateJob := fun _ _ _ => .ok ()
    submitWork := fun _ _ _ => .ok ()
    runClone := fun _ _ _ => .ok ⟨0, ""⟩
    locatePackage := fun _ _ => .ok (some "/site/pkg")
    osPathExists := fun _ => .ok true }

/-- Collaborators for the C9 witness: the path resolves but does not exist. -/
def cNotFound : Collabs :=
  { okC with pathExists := fun _ => .ok false }

/-- Claim C9 witness: the spec's scenario
`add_code_to_graph({path: "/does/not/exist"})`. -/
theorem c9_add_code_path_not_found_witness :
    add_code_to_graph cNotFound (some "/does/not/exist") false
      = ([], .ok [("success", .bool true), ("status", .str "path_not_found"),
          ("message", .str "Path '/does/not/exist' does not exist.")]) := by
  have h := (c9_add_code_path_not_found cNotFound "/does/not/exist"
    "/does/not/exist" false rfl rfl).1
  rw [h]
  decide

/-- Claim C2: when the candidate path exists and some listed repository's
path canonicalizes (via the same resolver) to the candidate's canonicalized
path, `add_code_to_graph` returns `{success: false}` with a message naming
the duplicate, and the trace holds no estimator and no job-store call. -/
theorem c2_add_code_duplicate (c : Collabs) (p pObj : String) (dep : Bool)
    (repos : List RepoRecord)
    (hres : c.resolve p = .ok pObj)
    (hex : c.pathExists pObj = .ok true)
    (hlist : c.listRepos = .ok repos)
    (hall : ∀ r ∈ repos, ∃ s, c.resolve r.path = .ok s)
    (hmem : ∃ r ∈ repos, c.resolve r.path = .ok pObj) :
    add_code_to_graph c (some p) dep
      = ([Effect.listRepos], .ok
          [("success", .bool false),
           ("message", .str ("Repository '" ++ p ++ "' is already indexed."))])
    ∧ strContainsSub ("Repository '" ++ p ++ "' is already indexed.")
        "already indexed" = true
    ∧ ∀ e ∈ (add_code_to_graph c (some p) dep).1,
        e.isEstimatorOrJobStore = false := by
  have hdup := findDup_of_mem c repos pObj hall hmem
  have h : add_code_to_graph c (some p) dep
      = ([Effect.listRepos], .ok
          [("success", .bool false),
           ("message", .str ("Repository '" ++ p ++ "' is already indexed."))]) := by
    simp [add_code_to_graph, addCodeTry, hres, hex, hlist, hdup]
  refine ⟨h, ?_, ?_⟩
  · exact strContainsSub_append_right ("Repository '" ++ p)
      "' is already indexed." "already indexed" (by decide)
  · intro e he
    rw [h] at he
    simp at he
    subst he
    rfl

/-- Collaborators for the C2 witness: the resolver canonicalizes the two
relative spellings `"./proj"` and `"proj"` to the same absolute path, and the
lister holds the entry under the other spelling. -/
def cDup : Collabs :=
  { okC with
    resolve := fun s => .ok (if s = "./proj" ∨ s = "proj" then "/abs/proj" else s)
    listRepos := .ok [⟨"proj", some "proj", false⟩] }

/-- Claim C2 witness: indexing `"./proj"` when `"proj"` is listed is rejected
as a duplicate with no estimator or job-store call. -/
theorem c2_add_code_duplicate_witness :
    add_code_to_graph cDup (some "./proj") false
      = ([Effect.listRepos], .ok
          [("success", .bool false),
           ("message", .str "Repository './proj' is already indexed.")]) := by
  have hall : ∀ r ∈ [RepoRecord.mk "proj" (some "proj") false],
      ∃ s, cDup.resolve r.path = .ok s := by
    intro r hr
    simp at hr
    subst hr
    exact ⟨"/abs/proj", by decide⟩
  have hmem : ∃ r ∈ [RepoRecord.mk "proj" (some "proj") false],
      cDup.resolve r.path = .ok "/abs/proj" := by
    exact ⟨RepoRecord.mk "proj" (some "proj") false, by simp, by decide⟩
  have h := (c2_add_code_duplicate cDup "./proj" "/abs/proj" false
    [RepoRecord.mk "proj" (some "proj") false] (by decide) (by decide) rfl hall hmem).1
  rw [h]
  decide

/-- Collaborators for the C3 counterexample: the lister already holds the
dependency record for the package located at `/site/pkg` — the record a prior
`add_package_to_graph` call for that package produced — but under a display
name (`"pkg-dist"`) that differs from the package name (`"pkg"`). -/
def cPkgListed : Collabs :=
  { okC with listRepos := .ok [⟨"/site/pkg", some "pkg-dist", true⟩] }

/-- Claim C3 counterexample: with the already-indexed dependency record
present in the listing (same package path, `is_dependency` set), the second
`add_package_to_graph` call for `"pkg"` does NOT return the already-indexed
rejection: it runs to success and calls both the estimator and the job store,
because the source deduplicates by `name` equality with the package name, not
by normalized absolute path. -/
theorem c3_add_package_dedup_counterexample :
    add_package_to_graph cPkgListed (some "pkg") (some "python") true
      = ([Effect.listRepos, Effect.locatePackage "pkg" "python",
          Effect.estimate "/site/pkg", Effect.createJob "/site/pkg" true,
          Effect.updateJob "job-1" 3 10, Effect.submitWork "/site/pkg" true "job-1"],
         .ok ([("success", .bool true), ("job_id", .str "job-1"),
           ("package_name", .str "pkg"), ("discovered_path", .str "/site/pkg"),
           ("message", .str "Background processing started for package 'pkg'")]
          ++ estimateFields 3 10 "job-1"))
    ∧ Effect.estimate "/site/pkg"
        ∈ (add_package_to_graph cPkgListed (some "pkg") (some "python") true).1
    ∧ Effect.createJob "/site/pkg" true
        ∈ (add_package_to_graph cPkgListed (some "pkg") (some "python") true).1 := by
  refine ⟨rfl, ?_, ?_⟩ <;> decide

/-- Claim C3 as amended: the second call is rejected with
`{success: false, "... already indexed ..."}` and no estimator or job-store
call exactly when the listed record carries a truthy `is_dependency` and a
`name` equal to the package name (or the package name with a `.py` suffix);
the comparison is by name, not by normalized absolute path. -/
theorem c3_add_package_dedup_by_name (c : Collabs) (pkg lang : String)
    (dep : Bool) (repos : List RepoRecord)
    (hlang : lang ≠ "")
    (hlist : c.listRepos = .ok repos)
    (hdup : repos.any (fun r => r.isDependency
        && (r.name == some pkg || r.name == some (pkg ++ ".py"))) = true) :
    add_package_to_graph c (some pkg) (some lang) dep
      = ([Effect.listRepos], .ok
          [("success", .bool false),
           ("message", .str ("Package '" ++ pkg ++ "' is already indexed."))])
    ∧ strContainsSub ("Package '" ++ pkg ++ "' is already indexed.")
        "already indexed" = true
    ∧ ∀ e ∈ (add_package_to_graph c (some pkg) (some lang) dep).1,
        e.isEstimatorOrJobStore = false := by
  have h : add_package_to_graph c (some pkg) (some lang) dep
      = ([Effect.listRepos], .ok
          [("success", .bool false),
           ("message", .str ("Package '" ++ pkg ++ "' is already indexed."))]) := by
    simp [add_package_to_graph, addPackageTry, hlang, hlist, pyShow, hdup]
  refine ⟨h, ?_, ?_⟩
  · exact strContainsSub_append_right ("Package '" ++ pkg)
      "' is already indexed." "already indexed" (by decide)
  · intro e he
    rw [h] at he
    simp at he
    subst he
    rfl

/-- Collaborators for the C3 witness: the listed dependency record carries the
package name itself. -/
def cPkgByName : Collabs :=
  { okC with listRepos := .ok [⟨"/site/pkg", some "pkg", true⟩] }

/-- Claim C3 (amended) witness: a second call for `"pkg"` with the record
listed under name `"pkg"` is rejected with no estimator or job-store call. -/
theorem c3_add_package_dedup_by_name_witness :
    add_package_to_graph cPkgByName (some "pkg") (some "python") true
      = ([Effect.listRepos], .ok
          [("success", .bool false),
           ("message", .str "Package 'pkg' is already indexed.")]) := by
  have h := (c3_add_package_dedup_by_name cPkgByName "pkg" "python" true
    [RepoRecord.mk "/site/pkg" (some "pkg") true] (by decide) rfl (by decide)).1
  rw [h]
  decide

/-- Collaborators for the C4 counterexample: clone fails with exit code 1 and
captured stderr `"x"`. -/
def cCloneBoundary : Collabs :=
  { okC with runClone := fun _ _ _ => .ok ⟨1, "x"⟩ }

/-- Claim C4 counterexample: with `GIT_TOKEN = "failed: x"` the captured
stderr `"x"` contains no occurrence of the token, so redaction leaves it
unchanged — yet the returned error text `"git clone failed: x"` does contain
the token as a substring, assembled across the boundary between the fixed
error prefix and the redacted stderr.  So the claim that the returned error
text contains no substring equal to the token value is false. -/
theorem c4_token_redaction_counterexample :
    (index_repository cCloneBoundary (some "failed: x")
        (some "https://example.com/org/repo.git") none false).2
      = .ok [("error", .str "git clone failed: x")]
    ∧ strContainsSub "git clone failed: x" "failed: x" = true := by
  constructor <;> decide

/-- Claim C4 as amended: when a non-empty token is configured and the clone
subprocess fails, (a) on timeout the returned error names the 300-second
bound and the original URL (not the token-embedded clone URL), and (b) on
non-zero exit the returned error is the captured stderr with every occurrence
of the literal token replaced by `"***"` (then stripped), behind the fixed
prefix. -/
theorem c4_clone_failure_redaction (c : Collabs) (tok u : String)
    (branchArg : Option String) (dep : Bool) (pObj : String)
    (repos : List RepoRecord)
    (htok : tok ≠ "") (hurl : u ≠ "") (hname : deriveRepoName u ≠ "")
    (hres : c.resolve ("/workspace/" ++ deriveRepoName u) = .ok pObj)
    (hlist : c.listRepos = .ok repos)
    (hdup : findDup c repos pObj = .ok false) :
    (∀ m, c.runClone (buildCloneUrl u (some tok)) (branchArg.getD "main")
        ("/workspace/" ++ deriveRepoName u) = .error (.timeoutExpired m) →
      (index_repository c (some tok) (some u) branchArg dep).2
        = .ok [("error", .str ("git clone timed out after 300 seconds for " ++ u))])
    ∧ (∀ rc stderr, c.runClone (buildCloneUrl u (some tok)) (branchArg.getD "main")
        ("/workspace/" ++ deriveRepoName u) = .ok ⟨rc, stderr⟩ → rc ≠ 0 →
      (index_repository c (some tok) (some u) branchArg dep).2
        = .ok [("error", .str ("git clone failed: "
            ++ pyStrip (pyReplace stderr tok "***")))]) := by
  constructor
  · intro m hcl
    have hbody : indexRepoTry c (some tok) u (branchArg.getD "main") dep
        = ([Effect.listRepos, Effect.gitClone (buildCloneUrl u (some tok))
            (branchArg.getD "main") ("/workspace/" ++ deriveRepoName u)],
           .error (.timeoutExpired m)) := by
      simp [indexRepoTry, hname, hres, hlist, hdup, hcl]
    simp [index_repository, hurl, hbody]
  · intro rc stderr hcl hrc
    have hbody : indexRepoTry c (some tok) u (branchArg.getD "main") dep
        = ([Effect.listRepos, Effect.gitClone (buildCloneUrl u (some tok))
            (branchArg.getD "main") ("/workspace/" ++ deriveRepoName u)],
           .ok [("error", .str ("git clone failed: "
             ++ pyStrip (pyReplace stderr tok "***")))]) := by
      simp [indexRepoTry, hname, hres, hlist, hdup, hcl, hrc, htok]
    simp [index_repository, hurl, hbody]

/-- Collaborators for the C4 witness, non-zero-exit half: stderr echoes the
token. -/
def cCloneFail : Collabs :=
  { okC with runClone := fun _ _ _ => .ok ⟨128, "remote: auth sekret-token failed\n"⟩ }

/-- Collaborators for the C4 witness, timeout half. -/
def cCloneTimeout : Collabs :=
  { okC with runClone :=
      fun _ _ _ => Except.error (PyExn.timeoutExpired "Command timed out after 300 seconds") }

/-- Claim C4 (amended) witness: on non-zero exit the token echoed in stderr
comes back as `***`; on timeout the error names the bound and the original
URL. -/
theorem c4_clone_failure_redaction_witness :
    (index_repository cCloneFail (some "sekret-token")
        (some "https://example.com/org/repo.git") none false).2
      = .ok [("error", .str "git clone failed: remote: auth *** failed")]
    ∧ (index_repository cCloneTimeout (some "sekret-token")
        (some "https://example.com/org/repo.git") none false).2
      = .ok [("error", .str
          "git clone timed out after 300 seconds for https://example.com/org/repo.git")] := by
  constructor
  · have h := (c4_clone_failure_redaction cCloneFail "sekret-token"
      "https://example.com/org/repo.git" none false "/workspace/repo" []
      (by decide) (by decide) (by decide) (by decide) rfl (by decide)).2
      128 "remote: auth sekret-token failed\n" (by decide) (by decide)
    rw [h]
    decide
  · have h := (c4_clone_failure_redaction cCloneTimeout "sekret-token"
      "https://example.com/org/repo.git" none false "/workspace/repo" []
      (by decide) (by decide) (by decide) (by decide) rfl (by decide)).1
      "Command timed out after 300 seconds" (by decide)
    rw [h]
    decide

/-- Claim C5 witness: the three entry points return a dictionary at a
concrete input under benign collaborators. -/
theorem c5_handlers_never_propagate_witness :
    (∃ tr d, index_repository okC none (some "https://example.com/org/repo.git")
        none false = (tr, Except.ok d))
    ∧ (∃ tr d, add_code_to_graph okC (some "/proj") false = (tr, Except.ok d))
    ∧ (∃ tr d, add_package_to_graph okC (some "pkg") (some "python") true
        = (tr, Except.ok d)) :=
  c5_handlers_never_propagate okC none (some "https://example.com/org/repo.git")
    none (some "/proj") (some "pkg") (some "python") false false true
